import Mathlib

/-
  Shallow embedding of the proposal-lifecycle core of the governance /
  timelock programs (solana-program-library fork).

  Machine integers are modelled as Nat with explicit 2^64 (resp. 2^8)
  bounds where the source performs checked or wrapping arithmetic.
  Fallible instruction processors return Except; the Except error models
  the all-or-nothing abort of a Solana instruction (any partial account
  writes made before the error are rolled back by the runtime, so an
  error result carries no state).
  Account plumbing that is external to the verified logic (address
  equality assertions on supplied accounts, PDA derivation, token-program
  identity, the round-trip permission check when it is not itself the
  object of study) is supplied to each processor as boolean inputs that
  record whether the corresponding source assertion passes.
-/

/-- Modulus of the unsigned 64-bit integers used for all token amounts and
slot counters. -/
def U64_MOD : Nat := 2 ^ 64

/-- Modulus of the unsigned 8-bit integers (number_of_transactions is u8). -/
def U8_MOD : Nat := 2 ^ 8

/-- Rust u64::checked_add: some of the sum unless it overflows 64 bits. -/
def checked_add (a b : Nat) : Option Nat :=
  if a + b < U64_MOD then some (a + b) else none

/-- Rust u64::checked_sub: some of the difference unless it underflows. -/
def checked_sub (a b : Nat) : Option Nat :=
  if b ≤ a then some (a - b) else none

/-- Rust u8::checked_add for the u8 transaction counter. -/
def checked_add_u8 (a b : Nat) : Option Nat :=
  if a + b < U8_MOD then some (a + b) else none

/-- Rust unchecked u64 subtraction of 1 as it behaves in a release build:
the value wraps modulo 2^64 (with overflow checks enabled the program
would panic instead; in neither build does it produce an error return). -/
def wrapping_sub_one_u64 (a : Nat) : Nat :=
  (a + (U64_MOD - 1)) % U64_MOD

/-- Errors of the governance program used by the embedded processors.
The error enum itself is declared in a module not present in this tree;
the constructor names are the ones spelled out at the call sites in the
processors and in instruction.rs. -/
inductive GovernanceError
  | InstructionUnpackError
  | AccountsShouldMatch
  | InvalidProposalStateError
  | InvalidGovernanceAuthority
  | InvalidGovernanceVoteRecord
  | NumericalOverflow
  | TooHighPositionInTxnArrayError
  | InvalidInstructionEndIndex
  | MustBeAboveMinimumWaitingPeriod
  | InvalidTokenProgram
  | AlreadyInitialized
  | Uninitialized
  | TokenTransferFailed
  | TokenMintToFailed
  | TokenBurnFailed
  deriving DecidableEq

/-- Errors of the timelock program (error.rs names as used in
timelock/program/src/utils.rs and the timelock processors). -/
inductive TimelockError
  | InvalidTimelockAuthority
  | InvalidTimelockSetStateError
  | TimelockTransactionNotFoundError
  | AccountsShouldMatch
  | InvalidTimelockVersion
  | Uninitialized
  | TokenTransferFailed
  deriving DecidableEq

/-- ProposalStateStatus from governance state.rs. -/
inductive ProposalStateStatus
  | Draft
  | Voting
  | Executing
  | Completed
  | Deleted
  | Defeated
  deriving DecidableEq

/-- Vote enum from governance state.rs: yes or no with a u64 weight. -/
inductive Vote
  | Yes (amount : Nat)
  | No (amount : Nat)
  deriving DecidableEq

/-- Maximum number of transactions on a proposal (state.rs MAX_TRANSACTIONS). -/
def MAX_TRANSACTIONS : Nat := 5

/-- The mutable half of a proposal (governance state.rs ProposalState),
restricted to the fields the verified instructions read or write. -/
structure ProposalState where
  status : ProposalStateStatus
  total_signing_tokens_minted : Nat
  voting_ended_at : Nat
  voting_began_at : Nat
  number_of_executed_transactions : Nat
  number_of_transactions : Nat
  transactions : List Nat
  deriving DecidableEq

/-- Governance configuration fields consulted by process_vote
(state.rs Governance: vote_threshold is u8, time_limit is the voting
window in slots). -/
structure Governance where
  vote_threshold : Nat
  time_limit : Nat
  deriving DecidableEq

/-- Per-voter tally record (state.rs GovernanceVoteRecord). -/
structure GovernanceVoteRecord where
  yes_count : Nat
  no_count : Nat
  undecided_count : Nat
  deriving DecidableEq

/-- The yes weight of a vote (process_vote.rs lines 75-78). -/
def yes_vote_amount : Vote → Nat
  | Vote.Yes amount => amount
  | _ => 0

/-- The no weight of a vote (process_vote.rs lines 80-83). -/
def no_vote_amount : Vote → Nat
  | Vote.No amount => amount
  | _ => 0

/-- Inputs read by process_vote.rs: the proposal state and governance
records, the clock slot, the supplies and balances read from the token
accounts, and booleans recording whether the address assertions of lines
50-64 and 148-159 pass for the supplied accounts. -/
structure VoteCtx where
  proposal_state : ProposalState
  governance : Governance
  slot : Nat
  source_mint_supply : Nat
  yes_mint_supply : Nat
  no_mint_supply : Nat
  voting_acct_amount : Nat
  yes_acct_amount : Nat
  no_acct_amount : Nat
  accounts_equiv_ok : Bool
  authority_key_ok : Bool
  vote_record_key_ok : Bool
  deriving DecidableEq

/-- Everything a successful Vote instruction writes: the (possibly
updated) proposal state, the freshly written vote record, and the token
balances after the burn and the two mints. -/
structure VoteOutcome where
  proposal_state : ProposalState
  voting_record : GovernanceVoteRecord
  new_voting_amount : Nat
  new_yes_amount : Nat
  new_no_amount : Nat
  deriving DecidableEq

/-- process_vote.rs lines 85-91: remaining weight in the no column,
source_mint_supply minus the yes amount of this vote minus the yes mint
supply, each step by checked subtraction.  Note the source never reads
the no mint supply nor subtracts the no amount here. -/
def now_remaining_in_no_column (c : VoteCtx) (vote : Vote) : Option Nat :=
  match checked_sub c.source_mint_supply (yes_vote_amount vote) with
  | none => none
  | some r => checked_sub r c.yes_mint_supply

/-- process_vote.rs lines 125-127: the tip condition.  The source
compares in f64: remaining == 0 or (1 - remaining/total)*100 >=
vote_threshold.  The embedding evaluates that formula in exact
arithmetic: for total > 0 and remaining <= total (which holds wherever
the source reaches this line, remaining being total minus checked
subtractions), (1 - remaining/total)*100 >= threshold is equivalent to
100*(total - remaining) >= threshold*total after multiplying through by
total.  When total = 0 the source f64 term is NaN and the second
disjunct is false, but then remaining = 0 and the first disjunct fires
in source and embedding alike.  For the concrete inputs evaluated in
this file the f64 computation is exact at the boundary (400/1000,
1 - 0.4 and the product by 100 all round to exactly 60.0), so the f64
and exact comparisons agree. -/
def vote_tipped (total remaining threshold : Nat) : Bool :=
  remaining == 0 || decide (100 * (total - remaining) ≥ threshold * total)

/-- Embedding of governance process_vote.rs.  Steps in source order:
account-equivalence assertions (lines 50-55), assert_voting (57), the
derived-authority check (61-64), the checked computation of the
remaining no-column weight (85-91), the burn of the cast weight (98-105,
failing when the voting balance is short), the two evidence mints
(107-123, failing when a supply or destination balance would overflow
u64), the tip/timeout decision and status update (125-147), the vote
record address check (148-159) and the checked vote-record arithmetic
(161-179).  The source persists the updated proposal state before the
record address check; on the error paths after it the runtime discards
that write, which the Except error models. -/
def process_vote (c : VoteCtx) (vote : Vote) :
    Except GovernanceError VoteOutcome :=
  if c.accounts_equiv_ok = false then Except.error GovernanceError.AccountsShouldMatch
  else if c.proposal_state.status ≠ ProposalStateStatus.Voting then
    Except.error GovernanceError.InvalidProposalStateError
  else if c.authority_key_ok = false then
    Except.error GovernanceError.InvalidGovernanceAuthority
  else
    let total_ever_existed := c.source_mint_supply
    match now_remaining_in_no_column c vote with
    | none => Except.error GovernanceError.NumericalOverflow
    | some remaining =>
      if c.voting_acct_amount < yes_vote_amount vote + no_vote_amount vote then
        Except.error GovernanceError.TokenBurnFailed
      else if c.yes_mint_supply + yes_vote_amount vote ≥ U64_MOD ∨
          c.yes_acct_amount + yes_vote_amount vote ≥ U64_MOD then
        Except.error GovernanceError.TokenMintToFailed
      else if c.no_mint_supply + no_vote_amount vote ≥ U64_MOD ∨
          c.no_acct_amount + no_vote_amount vote ≥ U64_MOD then
        Except.error GovernanceError.TokenMintToFailed
      else
        let tipped := vote_tipped total_ever_existed remaining
          c.governance.vote_threshold
        match checked_sub c.slot c.proposal_state.voting_began_at with
        | none => Except.error GovernanceError.NumericalOverflow
        | some elapsed =>
          let too_long := decide (elapsed > c.governance.time_limit)
          let state' :=
            if tipped || too_long then
              { c.proposal_state with
                status := if tipped then ProposalStateStatus.Executing
                  else ProposalStateStatus.Defeated,
                voting_ended_at := c.slot }
            else c.proposal_state
          if c.vote_record_key_ok = false then
            Except.error GovernanceError.InvalidGovernanceVoteRecord
          else
            match checked_add c.yes_acct_amount (yes_vote_amount vote) with
            | none => Except.error GovernanceError.NumericalOverflow
            | some yes_count =>
              match checked_add c.no_acct_amount (no_vote_amount vote) with
              | none => Except.error GovernanceError.NumericalOverflow
              | some no_count =>
                match checked_add (yes_vote_amount vote) (no_vote_amount vote) with
                | none => Except.error GovernanceError.NumericalOverflow
                | some total_change =>
                  match checked_sub c.voting_acct_amount total_change with
                  | none => Except.error GovernanceError.NumericalOverflow
                  | some undecided =>
                    Except.ok
                      { proposal_state := state',
                        voting_record :=
                          { yes_count := yes_count, no_count := no_count,
                            undecided_count := undecided },
                        new_voting_amount :=
                          c.voting_acct_amount -
                            (yes_vote_amount vote + no_vote_amount vote),
                        new_yes_amount := c.yes_acct_amount + yes_vote_amount vote,
                        new_no_amount := c.no_acct_amount + no_vote_amount vote }

/-- True when an Except result is a success. -/
def is_ok {ε α : Type} : Except ε α → Bool
  | Except.ok _ => true
  | Except.error _ => false

/-- Definition following the specification text for comparison with the
source computation now_remaining_in_no_column: remaining_undecided =
total_ever_existed minus cumulative yes-vote supply minus cumulative
no-vote supply (both including the amounts cast by the current vote),
by checked subtraction. -/
def spec_remaining_undecided (total_ever_existed cumulative_yes_supply
    cumulative_no_supply : Nat) : Option Nat :=
  match checked_sub total_ever_existed cumulative_yes_supply with
  | none => none
  | some r => checked_sub r cumulative_no_supply

/-- Scenario proposal state: entered Voting at slot 0, no transactions. -/
def scenario_state : ProposalState :=
  { status := ProposalStateStatus.Voting, total_signing_tokens_minted := 0,
    voting_ended_at := 0, voting_began_at := 0,
    number_of_executed_transactions := 0, number_of_transactions := 0,
    transactions := [0, 0, 0, 0, 0] }

/-- Scenario governance: vote_threshold 60, max_voting_time 100. -/
def scenario_governance : Governance := { vote_threshold := 60, time_limit := 100 }

/-- Scenario vote context at slot 10: source mint total supply 1000, no
prior votes, the voter holds 1000 voting tokens, all account address
assertions pass. -/
def scenario_ctx1 : VoteCtx :=
  { proposal_state := scenario_state, governance := scenario_governance,
    slot := 10, source_mint_supply := 1000, yes_mint_supply := 0,
    no_mint_supply := 0, voting_acct_amount := 1000, yes_acct_amount := 0,
    no_acct_amount := 0, accounts_equiv_ok := true, authority_key_ok := true,
    vote_record_key_ok := true }

/-- The same scenario context at slot 150, past the voting window. -/
def scenario_ctx2 : VoteCtx := { scenario_ctx1 with slot := 150 }

/-- The scenario context after the status has flipped to Executing. -/
def executing_ctx : VoteCtx :=
  { scenario_ctx1 with
    proposal_state := { scenario_state with status := ProposalStateStatus.Executing } }

/-- C1 counterexample: on a pure No vote of weight 1000 over a source
supply of 1000 with no prior votes, the claim's formula gives remaining
undecided 0 (which would tip), but process_vote computes the remaining
no-column weight as 1000 - no no-vote supply is ever subtracted - and
leaves the proposal in Voting. -/
theorem vote_remaining_counterexample :
    spec_remaining_undecided 1000 0 1000 = some 0 ∧
    now_remaining_in_no_column scenario_ctx1 (Vote.No 1000) = some 1000 ∧
    (process_vote scenario_ctx1 (Vote.No 1000)).map
      (fun r => r.proposal_state.status) =
      Except.ok ProposalStateStatus.Voting :=
  ⟨rfl, rfl, rfl⟩

/-- C1 (amended): for every Vote instruction processed on a proposal in
Voting status, the engine computes the remaining no-column weight as
total_ever_existed minus the current yes amount minus the cumulative
yes-vote supply (the no column is never subtracted), using checked
subtraction that fails the instruction with NumericalOverflow on
underflow. -/
theorem vote_remaining_amended (c : VoteCtx) (v : Vote)
    (hacc : c.accounts_equiv_ok = true)
    (hst : c.proposal_state.status = ProposalStateStatus.Voting)
    (hauth : c.authority_key_ok = true) :
    (yes_vote_amount v + c.yes_mint_supply ≤ c.source_mint_supply →
      now_remaining_in_no_column c v =
        some (c.source_mint_supply - yes_vote_amount v - c.yes_mint_supply)) ∧
    (c.source_mint_supply < yes_vote_amount v + c.yes_mint_supply →
      process_vote c v = Except.error GovernanceError.NumericalOverflow) := by
  constructor
  · intro h
    have h1 : yes_vote_amount v ≤ c.source_mint_supply := by omega
    have h2 : c.yes_mint_supply ≤ c.source_mint_supply - yes_vote_amount v := by
      omega
    simp [now_remaining_in_no_column, checked_sub, h1, h2]
  · intro h
    have hnone : now_remaining_in_no_column c v = none := by
      by_cases h1 : yes_vote_amount v ≤ c.source_mint_supply
      · have h2 : ¬ c.yes_mint_supply ≤ c.source_mint_supply - yes_vote_amount v := by
          omega
        simp [now_remaining_in_no_column, checked_sub, h1, h2]
      · simp [now_remaining_in_no_column, checked_sub, h1]
    unfold process_vote
    simp [hacc, hst, hauth, hnone]

/-- Witness for the amended C1 theorem at the scenario input. -/
theorem vote_remaining_amended_witness :
    now_remaining_in_no_column scenario_ctx1 (Vote.Yes 600) = some 400 :=
  (vote_remaining_amended scenario_ctx1 (Vote.Yes 600) rfl rfl rfl).1 (by decide)

/-- C2: with vote_threshold 60 and max_voting_time 100, a proposal that
entered Voting at slot 0 over a source supply of 1000 with no prior
votes: a Vote of yes 600 at slot 10 sets the status to Executing and
voting_ended_at to 10, and a Vote of yes 50 at slot 150 with no prior
tip sets the status to Defeated (stamping voting_ended_at 150). -/
theorem vote_tipping_scenarios :
    (process_vote scenario_ctx1 (Vote.Yes 600)).map
      (fun r => (r.proposal_state.status, r.proposal_state.voting_ended_at)) =
      Except.ok (ProposalStateStatus.Executing, 10) ∧
    (process_vote scenario_ctx2 (Vote.Yes 50)).map
      (fun r => (r.proposal_state.status, r.proposal_state.voting_ended_at)) =
      Except.ok (ProposalStateStatus.Defeated, 150) :=
  ⟨rfl, rfl⟩

/-- C3 counterexample: once the proposal status is Executing, a further
Vote is not accepted for token accounting - assert_voting rejects the
instruction with the invalid-state error. -/
theorem vote_after_flip_counterexample :
    process_vote executing_ctx (Vote.Yes 1) =
      Except.error GovernanceError.InvalidProposalStateError :=
  rfl

/-- C3 (amended): once a proposal's status has flipped to Executing or
Defeated, every subsequent Vote instruction fails (performing no token
accounting and changing no state); when the account address assertions
pass it fails exactly with the invalid-proposal-state error raised by
assert_voting. -/
theorem vote_after_flip_amended (c : VoteCtx) (v : Vote)
    (h : c.proposal_state.status = ProposalStateStatus.Executing ∨
      c.proposal_state.status = ProposalStateStatus.Defeated) :
    is_ok (process_vote c v) = false ∧
    (c.accounts_equiv_ok = true →
      process_vote c v = Except.error GovernanceError.InvalidProposalStateError) := by
  have hne : c.proposal_state.status ≠ ProposalStateStatus.Voting := by
    rcases h with h | h <;> rw [h] <;> intro hc <;> cases hc
  by_cases hacc : c.accounts_equiv_ok = true
  · have hstep : process_vote c v =
        Except.error GovernanceError.InvalidProposalStateError := by
      unfold process_vote
      simp [hacc, hne]
    exact ⟨by rw [hstep]; rfl, fun _ => hstep⟩
  · have hacc' : c.accounts_equiv_ok = false := by
      cases hb : c.accounts_equiv_ok
      · rfl
      · exact absurd hb hacc
    have hstep : process_vote c v =
        Except.error GovernanceError.AccountsShouldMatch := by
      unfold process_vote
      simp [hacc']
    exact ⟨by rw [hstep]; rfl, fun hc => absurd hc hacc⟩

/-- Witness for the amended C3 theorem at the Executing scenario input. -/
theorem vote_after_flip_amended_witness :
    is_ok (process_vote executing_ctx (Vote.Yes 1)) = false :=
  (vote_after_flip_amended executing_ctx (Vote.Yes 1) (Or.inl rfl)).1

/-- Size of the fixed instruction buffer checked by
process_add_custom_single_signer_transaction (the limit the governance
variant names MAX_INSTRUCTION_DATA; its defining module is not in this
tree, but the sibling constants INSTRUCTION_LIMIT and
MAX_PROPOSAL_INSTRUCTION_DATA_LENGTH in it are both 450). -/
def MAX_INSTRUCTION_DATA : Nat := 450

/-- Inputs of z_process_add_custom_single_signer_transaction.rs: the
proposal state, the governance's minimum hold-up time, the key of the
transaction account being added, and booleans recording whether the
uninitialized-account assertion, the address assertions, the token
program check and the signatory permission round-trip pass. -/
structure AddTxnCtx where
  proposal_state : ProposalState
  min_instruction_hold_up_time : Nat
  txn_key : Nat
  txn_uninitialized : Bool
  accounts_equiv_ok : Bool
  token_program_ok : Bool
  permission_ok : Bool
  deriving DecidableEq

/-- Embedding of z_process_add_custom_single_signer_transaction.rs
(the timelock twin in
timelock/program/src/processor/process_add_custom_single_signer_transaction.rs
has the identical structure with INSTRUCTION_LIMIT in place of
MAX_INSTRUCTION_DATA).  Source order: assert_uninitialized on the
transaction account, the position capacity check, the
instruction_end_index bound, the address assertions, assert_draft, the
token-program check, assert_is_permissioned, the minimum hold-up check,
then the write of the transaction slot and the checked u8 increment of
number_of_transactions.  Every error path precedes the two writes, so an
error leaves the proposal state untouched. -/
def process_add_custom_single_signer_transaction (c : AddTxnCtx)
    (delay_slots position instruction_end_index : Nat) :
    Except GovernanceError ProposalState :=
  if c.txn_uninitialized = false then
    Except.error GovernanceError.AlreadyInitialized
  else if position ≥ MAX_TRANSACTIONS then
    Except.error GovernanceError.TooHighPositionInTxnArrayError
  else if instruction_end_index ≥ MAX_INSTRUCTION_DATA then
    Except.error GovernanceError.InvalidInstructionEndIndex
  else if c.accounts_equiv_ok = false then
    Except.error GovernanceError.AccountsShouldMatch
  else if c.proposal_state.status ≠ ProposalStateStatus.Draft then
    Except.error GovernanceError.InvalidProposalStateError
  else if c.token_program_ok = false then
    Except.error GovernanceError.InvalidTokenProgram
  else if c.permission_ok = false then
    Except.error GovernanceError.TokenTransferFailed
  else if delay_slots < c.min_instruction_hold_up_time then
    Except.error GovernanceError.MustBeAboveMinimumWaitingPeriod
  else
    match checked_add_u8 c.proposal_state.number_of_transactions 1 with
    | none => Except.error GovernanceError.NumericalOverflow
    | some n =>
      Except.ok
        { c.proposal_state with
          transactions := c.proposal_state.transactions.set position c.txn_key,
          number_of_transactions := n }

/-- Inputs of z_process_remove_signer.rs: the proposal state, the
balance of the signatory account whose token is burned, and booleans for
the address assertions, the token program check, the admin permission
round-trip and the derived-authority check. -/
structure RemoveSignerCtx where
  proposal_state : ProposalState
  accounts_equiv_ok : Bool
  token_program_ok : Bool
  permission_ok : Bool
  authority_key_ok : Bool
  signatory_acct_amount : Nat
  deriving DecidableEq

/-- Embedding of z_process_remove_signer.rs.  Source order: address
assertions, token-program check, assert_draft, assert_is_permissioned,
derived-authority check, burn of one signatory token (failing when the
account holds none), then the UNCHECKED decrement
total_signing_tokens_minted -= 1 (line 72), which wraps modulo 2^64 in
a release build and never yields a NumericalOverflow error. -/
def process_remove_signer (c : RemoveSignerCtx) :
    Except GovernanceError ProposalState :=
  if c.accounts_equiv_ok = false then
    Except.error GovernanceError.AccountsShouldMatch
  else if c.token_program_ok = false then
    Except.error GovernanceError.InvalidTokenProgram
  else if c.proposal_state.status ≠ ProposalStateStatus.Draft then
    Except.error GovernanceError.InvalidProposalStateError
  else if c.permission_ok = false then
    Except.error GovernanceError.TokenTransferFailed
  else if c.authority_key_ok = false then
    Except.error GovernanceError.InvalidGovernanceAuthority
  else if c.signatory_acct_amount < 1 then
    Except.error GovernanceError.TokenBurnFailed
  else
    Except.ok
      { c.proposal_state with
        total_signing_tokens_minted :=
          wrapping_sub_one_u64 c.proposal_state.total_signing_tokens_minted }

/-- process_deposit_governing_tokens.rs lines 87-95: the update of an
existing voter record's token_deposit_amount is
checked_add(amount).unwrap(); the none case models the unwrap panic (an
instruction crash, not an error return and in particular not
NumericalOverflow). -/
def token_deposit_amount_after_deposit (existing amount : Nat) : Option Nat :=
  checked_add existing amount

/-- A Draft proposal state with no signatory tokens minted. -/
def draft_state : ProposalState :=
  { scenario_state with status := ProposalStateStatus.Draft }

/-- A remove-signer context over the Draft state with every external
assertion passing and one signatory token to burn. -/
def remove_signer_ctx0 : RemoveSignerCtx :=
  { proposal_state := draft_state, accounts_equiv_ok := true,
    token_program_ok := true, permission_ok := true,
    authority_key_ok := true, signatory_acct_amount := 1 }

/-- The same remove-signer context with 7 signatory tokens minted. -/
def remove_signer_ctx7 : RemoveSignerCtx :=
  { remove_signer_ctx0 with
    proposal_state := { draft_state with total_signing_tokens_minted := 7 } }

/-- An add-transaction context over the Draft state with every external
assertion passing and a minimum hold-up time of 5 slots. -/
def add_txn_ctx : AddTxnCtx :=
  { proposal_state := draft_state, min_instruction_hold_up_time := 5,
    txn_key := 42, txn_uninitialized := true, accounts_equiv_ok := true,
    token_program_ok := true, permission_ok := true }

/-- C4: in Draft state the call is rejected for position >= 5, for
instruction_end_index >= the instruction size limit, and for delay_slots
below the governance minimum hold-up time; rejections return before any
write, so the proposal state (number_of_transactions included) is
unchanged; on success number_of_transactions is incremented by a checked
add (failing with NumericalOverflow when the u8 counter would wrap). -/
theorem add_transaction_guards (c : AddTxnCtx) (d p ei : Nat)
    (hun : c.txn_uninitialized = true) :
    (p ≥ MAX_TRANSACTIONS →
      process_add_custom_single_signer_transaction c d p ei =
        Except.error GovernanceError.TooHighPositionInTxnArrayError) ∧
    (p < MAX_TRANSACTIONS → ei ≥ MAX_INSTRUCTION_DATA →
      process_add_custom_single_signer_transaction c d p ei =
        Except.error GovernanceError.InvalidInstructionEndIndex) ∧
    (c.accounts_equiv_ok = true → c.proposal_state.status = ProposalStateStatus.Draft →
      c.token_program_ok = true → c.permission_ok = true →
      p < MAX_TRANSACTIONS → ei < MAX_INSTRUCTION_DATA →
      d < c.min_instruction_hold_up_time →
      process_add_custom_single_signer_transaction c d p ei =
        Except.error GovernanceError.MustBeAboveMinimumWaitingPeriod) ∧
    (c.accounts_equiv_ok = true → c.proposal_state.status = ProposalStateStatus.Draft →
      c.token_program_ok = true → c.permission_ok = true →
      p < MAX_TRANSACTIONS → ei < MAX_INSTRUCTION_DATA →
      c.min_instruction_hold_up_time ≤ d →
      c.proposal_state.number_of_transactions + 1 < U8_MOD →
      process_add_custom_single_signer_transaction c d p ei =
        Except.ok
          { c.proposal_state with
            transactions := c.proposal_state.transactions.set p c.txn_key,
            number_of_transactions := c.proposal_state.number_of_transactions + 1 }) ∧
    (c.accounts_equiv_ok = true → c.proposal_state.status = ProposalStateStatus.Draft →
      c.token_program_ok = true → c.permission_ok = true →
      p < MAX_TRANSACTIONS → ei < MAX_INSTRUCTION_DATA →
      c.min_instruction_hold_up_time ≤ d →
      U8_MOD ≤ c.proposal_state.number_of_transactions + 1 →
      process_add_custom_single_signer_transaction c d p ei =
        Except.error GovernanceError.NumericalOverflow) := by
  refine ⟨?_, ?_, ?_, ?_, ?_⟩
  · intro hp
    simp [process_add_custom_single_signer_transaction, hun, hp]
  · intro hp hei
    have hp' : ¬ p ≥ MAX_TRANSACTIONS := by omega
    simp [process_add_custom_single_signer_transaction, hun, hp', hei]
  · intro h1 h2 h3 h4 hp hei hd
    have hp' : ¬ p ≥ MAX_TRANSACTIONS := by omega
    have hei' : ¬ ei ≥ MAX_INSTRUCTION_DATA := by omega
    simp [process_add_custom_single_signer_transaction, hun, hp', hei', h1, h2,
      h3, h4, hd]
  · intro h1 h2 h3 h4 hp hei hd hn
    have hp' : ¬ p ≥ MAX_TRANSACTIONS := by omega
    have hei' : ¬ ei ≥ MAX_INSTRUCTION_DATA := by omega
    have hd' : ¬ d < c.min_instruction_hold_up_time := by omega
    simp [process_add_custom_single_signer_transaction, hun, hp', hei', h1, h2,
      h3, h4, hd', checked_add_u8, hn]
  · intro h1 h2 h3 h4 hp hei hd hn
    have hp' : ¬ p ≥ MAX_TRANSACTIONS := by omega
    have hei' : ¬ ei ≥ MAX_INSTRUCTION_DATA := by omega
    have hd' : ¬ d < c.min_instruction_hold_up_time := by omega
    have hn' : ¬ c.proposal_state.number_of_transactions + 1 < U8_MOD := by omega
    simp [process_add_custom_single_signer_transaction, hun, hp', hei', h1, h2,
      h3, h4, hd', checked_add_u8, hn']

/-- Witness for C4 at position 5 (capacity is 0-4). -/
theorem add_transaction_guards_witness :
    process_add_custom_single_signer_transaction add_txn_ctx 10 5 0 =
      Except.error GovernanceError.TooHighPositionInTxnArrayError :=
  (add_transaction_guards add_txn_ctx 10 5 0 rfl).1 (by decide)

/-- C5 counterexample: with total_signing_tokens_minted = 0 and every
guard passing, RemoveSignatory succeeds and the counter wraps to
2^64 - 1 instead of the instruction aborting with NumericalOverflow;
and a deposit pushing token_deposit_amount past 2^64 - 1 crashes on
unwrap (modelled none) instead of returning NumericalOverflow. -/
theorem arithmetic_fault_counterexample :
    (process_remove_signer remove_signer_ctx0).map
      (fun s => s.total_signing_tokens_minted) = Except.ok (U64_MOD - 1) ∧
    token_deposit_amount_after_deposit (U64_MOD - 1) 1 = none :=
  ⟨rfl, rfl⟩

/-- C5 (amended): the counters written by Vote and
AddCustomSingleSignerTransaction use checked arithmetic that aborts with
NumericalOverflow, but RemoveSignatory's decrement of
total_signing_tokens_minted is an unchecked subtraction that wraps
modulo 2^64 (no NumericalOverflow abort), and the deposit increment of
token_deposit_amount is checked_add followed by unwrap, which panics on
overflow instead of returning NumericalOverflow. -/
theorem arithmetic_fault_amended (c : RemoveSignerCtx)
    (h1 : c.accounts_equiv_ok = true) (h2 : c.token_program_ok = true)
    (h3 : c.proposal_state.status = ProposalStateStatus.Draft)
    (h4 : c.permission_ok = true) (h5 : c.authority_key_ok = true)
    (h6 : 1 ≤ c.signatory_acct_amount) :
    process_remove_signer c =
      Except.ok
        { c.proposal_state with
          total_signing_tokens_minted :=
            wrapping_sub_one_u64 c.proposal_state.total_signing_tokens_minted } ∧
    (∀ existing amount, existing + amount < U64_MOD →
      token_deposit_amount_after_deposit existing amount =
        some (existing + amount)) ∧
    (∀ existing amount, U64_MOD ≤ existing + amount →
      token_deposit_amount_after_deposit existing amount = none) := by
  refine ⟨?_, ?_, ?_⟩
  · have h6' : ¬ c.signatory_acct_amount < 1 := by omega
    simp [process_remove_signer, h1, h2, h3, h4, h5, h6']
  · intro existing amount h
    simp [token_deposit_amount_after_deposit, checked_add, h]
  · intro existing amount h
    have h' : ¬ existing + amount < U64_MOD := by omega
    simp [token_deposit_amount_after_deposit, checked_add, h']

/-- Witness for the amended C5 theorem: at 7 minted signatory tokens the
decrement lands on 6 (the wrap formula applied to 7). -/
theorem arithmetic_fault_amended_witness :
    process_remove_signer remove_signer_ctx7 =
      Except.ok
        { remove_signer_ctx7.proposal_state with
          total_signing_tokens_minted := wrapping_sub_one_u64 7 } :=
  (arithmetic_fault_amended remove_signer_ctx7 rfl rfl rfl rfl rfl
    (by decide)).1

/-- Size of a proposal's description_link wire field (the DESC_SIZE the
proposal-state module exports; its file is not in this tree, but the
matching MAX_PROPOSAL_DESCRIPTION_LINK_LENGTH in state.rs is 200). -/
def DESC_SIZE : Nat := 200

/-- Size of a proposal's name wire field (NAME_SIZE; state.rs has the
matching MAX_PROPOSAL_NAME_LENGTH = 32). -/
def NAME_SIZE : Nat := 32

/-- Size of a governance's name wire field (GOVERNANCE_NAME_LENGTH;
state.rs has the matching MAX_GOVERNANCE_NAME_LENGTH = 32). -/
def GOVERNANCE_NAME_LENGTH : Nat := 32

/-- The instruction enum of instruction.rs.  Fixed-size byte arrays are
lists of byte values; integer fields are the decoded numbers. -/
inductive GovernanceInstruction
  | InitProposal (description_link : List Nat) (name : List Nat)
  | AddSignatory
  | RemoveSignatory
  | AddCustomSingleSignerTransaction (delay_slots : Nat)
      (instruction : List Nat) (position : Nat) (instruction_end_index : Nat)
  | RemoveTransaction
  | UpdateTransactionDelaySlots (delay_slots : Nat)
  | CancelProposal
  | SignProposal
  | Vote (v : Vote)
  | Execute
  | DepositSourceTokens (voting_token_amount : Nat)
  | WithdrawVotingTokens (voting_token_amount : Nat)
  | CreateProgramGovernance (vote_threshold : Nat)
      (min_instruction_hold_up_time : Nat) (max_voting_time : Nat)
      (name : List Nat)
  | CreateEmptyGovernanceVoteRecord
  | CreateProposal (description_link : List Nat) (name : List Nat)
  deriving DecidableEq

/-- Result of GovernanceInstruction::unpack.  err is the
InstructionUnpackError return; crash models a Rust panic (out-of-bounds
split_at or slice index), which aborts the program without returning an
error value. -/
inductive UnpackResult
  | ok (i : GovernanceInstruction)
  | err
  | crash
  deriving DecidableEq

/-- Little-endian byte decoding (u64/u16/u8::from_le_bytes). -/
def from_le_bytes : List Nat → Nat
  | [] => 0
  | b :: rest => b + 256 * from_le_bytes rest

/-- Little-endian encoding of a number into the given byte width
(to_le_bytes). -/
def to_le_bytes : Nat → Nat → List Nat
  | _, 0 => []
  | n, w + 1 => n % 256 :: to_le_bytes (n / 256) w

/-- instruction.rs unpack_u64 (lines 406-418): reads 8 little-endian
bytes, error on a shorter buffer. -/
def unpack_u64 (input : List Nat) : Option (Nat × List Nat) :=
  if 8 ≤ input.length then some (from_le_bytes (input.take 8), input.drop 8)
  else none

/-- instruction.rs unpack_u16 (lines 420-432). -/
def unpack_u16 (input : List Nat) : Option (Nat × List Nat) :=
  if 2 ≤ input.length then some (from_le_bytes (input.take 2), input.drop 2)
  else none

/-- instruction.rs unpack_u8 (lines 452-464). -/
def unpack_u8 (input : List Nat) : Option (Nat × List Nat) :=
  if 1 ≤ input.length then some (from_le_bytes (input.take 1), input.drop 1)
  else none

/-- instruction.rs unpack_instructions (lines 434-450): error on an
empty or short buffer, otherwise copies the first
MAX_INSTRUCTION_DATA - 1 bytes and leaves the last byte zero. -/
def unpack_instructions (input : List Nat) : Option (List Nat × List Nat) :=
  if input.length = 0 then none
  else if input.length < MAX_INSTRUCTION_DATA then none
  else some (input.take (MAX_INSTRUCTION_DATA - 1) ++ [0],
    input.drop MAX_INSTRUCTION_DATA)

/-- Embedding of GovernanceInstruction::unpack (instruction.rs lines
308-404).  The tag dispatch mirrors the source match arm by arm; the
crash results mark exactly the places where the source indexes a slice
that can be shorter than the index: rest.split_at(DESC_SIZE) and
input_name[..NAME_SIZE - 1] in the tag 1 and 15 arms, and
rest[..GOVERNANCE_NAME_LENGTH - 1] in the tag 10 arm.  Unpacking is a
pure function of the input bytes and is performed by the dispatcher
before any account is read or written. -/
def GovernanceInstruction.unpack (input : List Nat) : UnpackResult :=
  match input with
  | [] => UnpackResult.err
  | tag :: rest =>
    if tag = 1 then
      if rest.length < DESC_SIZE then UnpackResult.crash
      else if (rest.drop DESC_SIZE).length < NAME_SIZE - 1 then UnpackResult.crash
      else
        UnpackResult.ok (GovernanceInstruction.InitProposal
          (rest.take (DESC_SIZE - 1) ++ [0])
          ((rest.drop DESC_SIZE).take (NAME_SIZE - 1) ++ [0]))
    else if tag = 2 then UnpackResult.ok GovernanceInstruction.AddSignatory
    else if tag = 3 then UnpackResult.ok GovernanceInstruction.RemoveSignatory
    else if tag = 4 then
      match unpack_u64 rest with
      | none => UnpackResult.err
      | some (delay_slots, r1) =>
        match unpack_instructions r1 with
        | none => UnpackResult.err
        | some (instruction, r2) =>
          match unpack_u8 r2 with
          | none => UnpackResult.err
          | some (position, r3) =>
            match unpack_u16 r3 with
            | none => UnpackResult.err
            | some (instruction_end_index, _) =>
              UnpackResult.ok
                (GovernanceInstruction.AddCustomSingleSignerTransaction
                  delay_slots instruction position instruction_end_index)
    else if tag = 5 then UnpackResult.ok GovernanceInstruction.RemoveTransaction
    else if tag = 6 then
      match unpack_u64 rest with
      | none => UnpackResult.err
      | some (delay_slots, _) =>
        UnpackResult.ok (GovernanceInstruction.UpdateTransactionDelaySlots delay_slots)
    else if tag = 7 then UnpackResult.ok GovernanceInstruction.CancelProposal
    else if tag = 8 then UnpackResult.ok GovernanceInstruction.SignProposal
    else if tag = 9 then
      match unpack_u64 rest with
      | none => UnpackResult.err
      | some (yes_amount, r1) =>
        match unpack_u64 r1 with
        | none => UnpackResult.err
        | some (no_amount, _) =>
          if yes_amount > 0 then
            UnpackResult.ok (GovernanceInstruction.Vote (Vote.Yes yes_amount))
          else if no_amount > 0 then
            UnpackResult.ok (GovernanceInstruction.Vote (Vote.No no_amount))
          else UnpackResult.err
    else if tag = 10 then
      match unpack_u8 rest with
      | none => UnpackResult.err
      | some (vote_threshold, r1) =>
        match unpack_u64 r1 with
        | none => UnpackResult.err
        | some (minimum_slot_waiting_period, r2) =>
          match unpack_u64 r2 with
          | none => UnpackResult.err
          | some (time_limit, r3) =>
            if r3.length < GOVERNANCE_NAME_LENGTH - 1 then UnpackResult.crash
            else
              UnpackResult.ok (GovernanceInstruction.CreateProgramGovernance
                vote_threshold minimum_slot_waiting_period time_limit
                (r3.take (GOVERNANCE_NAME_LENGTH - 1) ++ [0]))
    else if tag = 11 then UnpackResult.ok GovernanceInstruction.Execute
    else if tag = 12 then
      match unpack_u64 rest with
      | none => UnpackResult.err
      | some (amount, _) =>
        UnpackResult.ok (GovernanceInstruction.DepositSourceTokens amount)
    else if tag = 13 then
      match unpack_u64 rest with
      | none => UnpackResult.err
      | some (amount, _) =>
        UnpackResult.ok (GovernanceInstruction.WithdrawVotingTokens amount)
    else if tag = 14 then
      UnpackResult.ok GovernanceInstruction.CreateEmptyGovernanceVoteRecord
    else if tag = 15 then
      if rest.length < DESC_SIZE then UnpackResult.crash
      else if (rest.drop DESC_SIZE).length < NAME_SIZE - 1 then UnpackResult.crash
      else
        UnpackResult.ok (GovernanceInstruction.CreateProposal
          (rest.take (DESC_SIZE - 1) ++ [0])
          ((rest.drop DESC_SIZE).take (NAME_SIZE - 1) ++ [0]))
    else UnpackResult.err

/-- Embedding of GovernanceInstruction::pack (instruction.rs lines
467-554): one tag byte followed by the little-endian fields and the raw
byte arrays. -/
def GovernanceInstruction.pack : GovernanceInstruction → List Nat
  | GovernanceInstruction.InitProposal description_link name =>
    1 :: (description_link ++ name)
  | GovernanceInstruction.AddSignatory => [2]
  | GovernanceInstruction.RemoveSignatory => [3]
  | GovernanceInstruction.AddCustomSingleSignerTransaction delay_slots
      instruction position instruction_end_index =>
    4 :: (to_le_bytes delay_slots 8 ++ instruction ++
      to_le_bytes position 1 ++ to_le_bytes instruction_end_index 2)
  | GovernanceInstruction.RemoveTransaction => [5]
  | GovernanceInstruction.UpdateTransactionDelaySlots delay_slots =>
    6 :: to_le_bytes delay_slots 8
  | GovernanceInstruction.CancelProposal => [7]
  | GovernanceInstruction.SignProposal => [8]
  | GovernanceInstruction.Vote v =>
    9 :: (to_le_bytes (yes_vote_amount v) 8 ++ to_le_bytes (no_vote_amount v) 8)
  | GovernanceInstruction.CreateProgramGovernance vote_threshold
      minimum_slot_waiting_period time_limit name =>
    10 :: (to_le_bytes vote_threshold 1 ++ to_le_bytes minimum_slot_waiting_period 8 ++
      to_le_bytes time_limit 8 ++ name)
  | GovernanceInstruction.Execute => [11]
  | GovernanceInstruction.DepositSourceTokens amount => 12 :: to_le_bytes amount 8
  | GovernanceInstruction.WithdrawVotingTokens amount => 13 :: to_le_bytes amount 8
  | GovernanceInstruction.CreateEmptyGovernanceVoteRecord => [14]
  | GovernanceInstruction.CreateProposal description_link name =>
    15 :: (description_link ++ name)

/-- An encoded little-endian number occupies exactly its width. -/
theorem to_le_bytes_length (w n : Nat) : (to_le_bytes n w).length = w := by
  induction w generalizing n with
  | zero => rfl
  | succ w ih => simp [to_le_bytes, ih]

/-- Decoding a little-endian encoding recovers the number modulo 256^w. -/
theorem from_le_bytes_to_le_bytes (w n : Nat) :
    from_le_bytes (to_le_bytes n w) = n % 256 ^ w := by
  induction w generalizing n with
  | zero => simp [to_le_bytes, from_le_bytes, Nat.mod_one]
  | succ w ih =>
    rw [pow_succ']
    rw [Nat.mod_mul]
    simp [to_le_bytes, from_le_bytes, ih]

/-- The byte modulus of a u64 equals 2^64. -/
theorem pow256_8 : 256 ^ 8 = U64_MOD := by decide

/-- unpack_u64 splits off an 8-byte prefix. -/
theorem unpack_u64_append (l rest : List Nat) (h : l.length = 8) :
    unpack_u64 (l ++ rest) = some (from_le_bytes l, rest) := by
  unfold unpack_u64
  rw [if_pos (by simp [h])]
  rw [List.take_left' h, List.drop_left' h]

/-- unpack_u64 inverts to_le_bytes on in-range values. -/
theorem unpack_u64_encode (n : Nat) (rest : List Nat) (h : n < U64_MOD) :
    unpack_u64 (to_le_bytes n 8 ++ rest) = some (n, rest) := by
  rw [unpack_u64_append _ _ (to_le_bytes_length 8 n)]
  rw [from_le_bytes_to_le_bytes, pow256_8, Nat.mod_eq_of_lt h]

/-- unpack_u8 splits off a 1-byte prefix. -/
theorem unpack_u8_append (l rest : List Nat) (h : l.length = 1) :
    unpack_u8 (l ++ rest) = some (from_le_bytes l, rest) := by
  unfold unpack_u8
  rw [if_pos (by simp [h])]
  rw [List.take_left' h, List.drop_left' h]

/-- unpack_u16 splits off a 2-byte prefix. -/
theorem unpack_u16_append (l rest : List Nat) (h : l.length = 2) :
    unpack_u16 (l ++ rest) = some (from_le_bytes l, rest) := by
  unfold unpack_u16
  rw [if_pos (by simp [h])]
  rw [List.take_left' h, List.drop_left' h]

/-- Tag 1 with a buffer shorter than DESC_SIZE hits the out-of-bounds
split_at and crashes. -/
theorem unpack_tag1_short (rest : List Nat) (h : rest.length < DESC_SIZE) :
    GovernanceInstruction.unpack (1 :: rest) = UnpackResult.crash := by
  simp [GovernanceInstruction.unpack, h]

/-- Tag 1 with a name portion shorter than NAME_SIZE - 1 hits the
out-of-bounds name slice and crashes. -/
theorem unpack_tag1_short_name (rest : List Nat) (h1 : DESC_SIZE ≤ rest.length)
    (h2 : rest.length - DESC_SIZE < NAME_SIZE - 1) :
    GovernanceInstruction.unpack (1 :: rest) = UnpackResult.crash := by
  have h1' : ¬ rest.length < DESC_SIZE := by omega
  have h2' : (rest.drop DESC_SIZE).length < NAME_SIZE - 1 := by
    simp only [List.length_drop]
    omega
  simp [GovernanceInstruction.unpack, h1', h2']
  omega

/-- Tag 1 on a long-enough buffer copies the first DESC_SIZE - 1 and
NAME_SIZE - 1 bytes and zero-terminates both fields. -/
theorem unpack_tag1_ok (rest : List Nat) (h1 : DESC_SIZE ≤ rest.length)
    (h2 : NAME_SIZE - 1 ≤ rest.length - DESC_SIZE) :
    GovernanceInstruction.unpack (1 :: rest) =
      UnpackResult.ok (GovernanceInstruction.InitProposal
        (rest.take (DESC_SIZE - 1) ++ [0])
        ((rest.drop DESC_SIZE).take (NAME_SIZE - 1) ++ [0])) := by
  have h1' : ¬ rest.length < DESC_SIZE := by omega
  have h2' : ¬ (rest.drop DESC_SIZE).length < NAME_SIZE - 1 := by
    simp only [List.length_drop]
    omega
  simp [GovernanceInstruction.unpack, h1', h2']
  omega

/-- Tag 15 twin of unpack_tag1_short. -/
theorem unpack_tag15_short (rest : List Nat) (h : rest.length < DESC_SIZE) :
    GovernanceInstruction.unpack (15 :: rest) = UnpackResult.crash := by
  simp [GovernanceInstruction.unpack, h]

/-- Tag 15 twin of unpack_tag1_short_name. -/
theorem unpack_tag15_short_name (rest : List Nat) (h1 : DESC_SIZE ≤ rest.length)
    (h2 : rest.length - DESC_SIZE < NAME_SIZE - 1) :
    GovernanceInstruction.unpack (15 :: rest) = UnpackResult.crash := by
  have h1' : ¬ rest.length < DESC_SIZE := by omega
  have h2' : (rest.drop DESC_SIZE).length < NAME_SIZE - 1 := by
    simp only [List.length_drop]
    omega
  simp [GovernanceInstruction.unpack, h1', h2']
  omega

/-- Tag 15 twin of unpack_tag1_ok. -/
theorem unpack_tag15_ok (rest : List Nat) (h1 : DESC_SIZE ≤ rest.length)
    (h2 : NAME_SIZE - 1 ≤ rest.length - DESC_SIZE) :
    GovernanceInstruction.unpack (15 :: rest) =
      UnpackResult.ok (GovernanceInstruction.CreateProposal
        (rest.take (DESC_SIZE - 1) ++ [0])
        ((rest.drop DESC_SIZE).take (NAME_SIZE - 1) ++ [0])) := by
  have h1' : ¬ rest.length < DESC_SIZE := by omega
  have h2' : ¬ (rest.drop DESC_SIZE).length < NAME_SIZE - 1 := by
    simp only [List.length_drop]
    omega
  simp [GovernanceInstruction.unpack, h1', h2']
  omega

set_option maxRecDepth 8192 in
/-- Tag 10 with a name portion shorter than GOVERNANCE_NAME_LENGTH - 1
hits the out-of-bounds name slice and crashes. -/
theorem unpack_tag10_crash (b1 b8a b8b nm : List Nat) (hb1 : b1.length = 1)
    (hb8a : b8a.length = 8) (hb8b : b8b.length = 8)
    (h : nm.length < GOVERNANCE_NAME_LENGTH - 1) :
    GovernanceInstruction.unpack (10 :: (b1 ++ (b8a ++ (b8b ++ nm)))) =
      UnpackResult.crash := by
  simp [GovernanceInstruction.unpack, unpack_u8_append _ _ hb1,
    unpack_u64_append _ _ hb8a, unpack_u64_append _ _ hb8b, h]

set_option maxRecDepth 8192 in
/-- Tag 10 on well-sized chunks decodes the numeric fields and copies
the first GOVERNANCE_NAME_LENGTH - 1 name bytes, zero-terminated. -/
theorem unpack_tag10_ok (b1 b8a b8b nm : List Nat) (hb1 : b1.length = 1)
    (hb8a : b8a.length = 8) (hb8b : b8b.length = 8)
    (h : GOVERNANCE_NAME_LENGTH - 1 ≤ nm.length) :
    GovernanceInstruction.unpack (10 :: (b1 ++ (b8a ++ (b8b ++ nm)))) =
      UnpackResult.ok (GovernanceInstruction.CreateProgramGovernance
        (from_le_bytes b1) (from_le_bytes b8a) (from_le_bytes b8b)
        (nm.take (GOVERNANCE_NAME_LENGTH - 1) ++ [0])) := by
  have h' : ¬ nm.length < GOVERNANCE_NAME_LENGTH - 1 := by omega
  simp [GovernanceInstruction.unpack, unpack_u8_append _ _ hb1,
    unpack_u64_append _ _ hb8a, unpack_u64_append _ _ hb8b, h']

/-- C9: for a tag-9 wire encoding (little-endian u64 yes amount then
u64 no amount), unpacking rejects the instruction when both amounts are
zero; a nonzero yes amount yields Vote::Yes(yes) and silently discards
the no amount even when it is nonzero; Vote::No(no) results only when
yes is zero and no is nonzero. -/
theorem vote_unpack_spec (yes no : Nat) (extra : List Nat)
    (hyes : yes < U64_MOD) (hno : no < U64_MOD) :
    (yes = 0 → no = 0 →
      GovernanceInstruction.unpack
        (9 :: (to_le_bytes yes 8 ++ (to_le_bytes no 8 ++ extra))) =
        UnpackResult.err) ∧
    (0 < yes →
      GovernanceInstruction.unpack
        (9 :: (to_le_bytes yes 8 ++ (to_le_bytes no 8 ++ extra))) =
        UnpackResult.ok (GovernanceInstruction.Vote (Vote.Yes yes))) ∧
    (yes = 0 → 0 < no →
      GovernanceInstruction.unpack
        (9 :: (to_le_bytes yes 8 ++ (to_le_bytes no 8 ++ extra))) =
        UnpackResult.ok (GovernanceInstruction.Vote (Vote.No no))) := by
  have h1 := unpack_u64_encode yes (to_le_bytes no 8 ++ extra) hyes
  have h2 := unpack_u64_encode no extra hno
  refine ⟨?_, ?_, ?_⟩
  · intro hy hn
    subst hy
    subst hn
    simp [GovernanceInstruction.unpack, h1, h2]
  · intro hy
    simp [GovernanceInstruction.unpack, h1, h2, hy]
  · intro hy hn
    subst hy
    simp [GovernanceInstruction.unpack, h1, h2, hn]

/-- Witness for C9: yes 600 with a nonzero no amount of 5 yields
Vote::Yes(600), the no amount discarded. -/
theorem vote_unpack_spec_witness :
    GovernanceInstruction.unpack
      (9 :: (to_le_bytes 600 8 ++ (to_le_bytes 5 8 ++ []))) =
      UnpackResult.ok (GovernanceInstruction.Vote (Vote.Yes 600)) :=
  (vote_unpack_spec 600 5 [] (by decide) (by decide)).2.1 (by decide)

/-- True when an instruction carries a description or name string whose
last byte is nonzero (the byte the unpack truncation always zeroes). -/
def has_nonzero_last_string_byte : GovernanceInstruction → Bool
  | GovernanceInstruction.InitProposal d n =>
    !(d.getLast? == some 0) || !(n.getLast? == some 0)
  | GovernanceInstruction.CreateProgramGovernance _ _ _ nm =>
    !(nm.getLast? == some 0)
  | GovernanceInstruction.CreateProposal d n =>
    !(d.getLast? == some 0) || !(n.getLast? == some 0)
  | _ => false

/-- C10: for the fixed-size string fields (proposal description_link
and name, governance name), unpack copies only the first SIZE - 1 bytes
of the wire data and always leaves the final byte zero; consequently
pack followed by unpack is not the identity on any instruction whose
description or name has a nonzero last byte. -/
theorem string_field_truncation :
    (∀ rest : List Nat, DESC_SIZE ≤ rest.length →
      NAME_SIZE - 1 ≤ rest.length - DESC_SIZE →
      GovernanceInstruction.unpack (1 :: rest) =
        UnpackResult.ok (GovernanceInstruction.InitProposal
          (rest.take (DESC_SIZE - 1) ++ [0])
          ((rest.drop DESC_SIZE).take (NAME_SIZE - 1) ++ [0]))) ∧
    (∀ rest : List Nat, DESC_SIZE ≤ rest.length →
      NAME_SIZE - 1 ≤ rest.length - DESC_SIZE →
      GovernanceInstruction.unpack (15 :: rest) =
        UnpackResult.ok (GovernanceInstruction.CreateProposal
          (rest.take (DESC_SIZE - 1) ++ [0])
          ((rest.drop DESC_SIZE).take (NAME_SIZE - 1) ++ [0]))) ∧
    (∀ b1 b8a b8b nm : List Nat, b1.length = 1 → b8a.length = 8 →
      b8b.length = 8 → GOVERNANCE_NAME_LENGTH - 1 ≤ nm.length →
      GovernanceInstruction.unpack (10 :: (b1 ++ (b8a ++ (b8b ++ nm)))) =
        UnpackResult.ok (GovernanceInstruction.CreateProgramGovernance
          (from_le_bytes b1) (from_le_bytes b8a) (from_le_bytes b8b)
          (nm.take (GOVERNANCE_NAME_LENGTH - 1) ++ [0]))) ∧
    (∀ i : GovernanceInstruction, has_nonzero_last_string_byte i = true →
      GovernanceInstruction.unpack (GovernanceInstruction.pack i) ≠
        UnpackResult.ok i) := by
  refine ⟨fun rest h1 h2 => unpack_tag1_ok rest h1 h2,
    fun rest h1 h2 => unpack_tag15_ok rest h1 h2,
    fun b1 b8a b8b nm hb1 hb8a hb8b hnm =>
      unpack_tag10_ok b1 b8a b8b nm hb1 hb8a hb8b hnm, ?_⟩
  intro i hne h
  cases i with
  | InitProposal d n =>
    simp only [GovernanceInstruction.pack] at h
    rcases Nat.lt_or_ge (d ++ n).length DESC_SIZE with hl1 | hl1
    · rw [unpack_tag1_short _ hl1] at h
      exact UnpackResult.noConfusion h
    · rcases Nat.lt_or_ge ((d ++ n).length - DESC_SIZE) (NAME_SIZE - 1)
        with hl2 | hl2
      · rw [unpack_tag1_short_name _ hl1 hl2] at h
        exact UnpackResult.noConfusion h
      · rw [unpack_tag1_ok _ hl1 hl2] at h
        injection h with hI
        injection hI with hd hn
        rw [← hd, ← hn] at hne
        simp [has_nonzero_last_string_byte, List.getLast?_concat] at hne
  | CreateProgramGovernance vt ms tl nm =>
    simp only [GovernanceInstruction.pack, List.append_assoc] at h
    rcases Nat.lt_or_ge nm.length (GOVERNANCE_NAME_LENGTH - 1) with hl | hl
    · rw [unpack_tag10_crash _ _ _ _ (to_le_bytes_length 1 vt)
        (to_le_bytes_length 8 ms) (to_le_bytes_length 8 tl) hl] at h
      exact UnpackResult.noConfusion h
    · rw [unpack_tag10_ok _ _ _ _ (to_le_bytes_length 1 vt)
        (to_le_bytes_length 8 ms) (to_le_bytes_length 8 tl) hl] at h
      injection h with hI
      injection hI with e1 e2 e3 e4
      rw [← e4] at hne
      simp [has_nonzero_last_string_byte, List.getLast?_concat] at hne
  | CreateProposal d n =>
    simp only [GovernanceInstruction.pack] at h
    rcases Nat.lt_or_ge (d ++ n).length DESC_SIZE with hl1 | hl1
    · rw [unpack_tag15_short _ hl1] at h
      exact UnpackResult.noConfusion h
    · rcases Nat.lt_or_ge ((d ++ n).length - DESC_SIZE) (NAME_SIZE - 1)
        with hl2 | hl2
      · rw [unpack_tag15_short_name _ hl1 hl2] at h
        exact UnpackResult.noConfusion h
      · rw [unpack_tag15_ok _ hl1 hl2] at h
        injection h with hI
        injection hI with hd hn
        rw [← hd, ← hn] at hne
        simp [has_nonzero_last_string_byte, List.getLast?_concat] at hne
  | AddSignatory => simp [has_nonzero_last_string_byte] at hne
  | RemoveSignatory => simp [has_nonzero_last_string_byte] at hne
  | AddCustomSingleSignerTransaction a b c d =>
    simp [has_nonzero_last_string_byte] at hne
  | RemoveTransaction => simp [has_nonzero_last_string_byte] at hne
  | UpdateTransactionDelaySlots a => simp [has_nonzero_last_string_byte] at hne
  | CancelProposal => simp [has_nonzero_last_string_byte] at hne
  | SignProposal => simp [has_nonzero_last_string_byte] at hne
  | Vote v => simp [has_nonzero_last_string_byte] at hne
  | Execute => simp [has_nonzero_last_string_byte] at hne
  | DepositSourceTokens a => simp [has_nonzero_last_string_byte] at hne
  | WithdrawVotingTokens a => simp [has_nonzero_last_string_byte] at hne
  | CreateEmptyGovernanceVoteRecord =>
    simp [has_nonzero_last_string_byte] at hne

/-- Witness for C10 at a one-byte description and name ending in 1. -/
theorem string_field_truncation_witness :
    GovernanceInstruction.unpack
      (GovernanceInstruction.pack (GovernanceInstruction.InitProposal [1] [1])) ≠
      UnpackResult.ok (GovernanceInstruction.InitProposal [1] [1]) :=
  string_field_truncation.2.2.2 (GovernanceInstruction.InitProposal [1] [1])
    (by decide)

/-- C6 counterexample: the one-byte input consisting of the InitProposal
tag makes unpack crash (the source panics in rest.split_at(DESC_SIZE)),
which is not the instruction-unpack error the claim requires. -/
theorem unpack_truncated_counterexample :
    GovernanceInstruction.unpack [1] = UnpackResult.crash ∧
    UnpackResult.crash ≠ UnpackResult.err :=
  ⟨rfl, by decide⟩

/-- C6 (amended): unpacking is a pure function evaluated before any
account state is touched; an empty input or an unknown tag yields the
instruction-unpack error, and for every variant except the three
string-carrying ones (tags 1, 10 and 15) a truncated buffer also yields
the unpack error and never panics; tags 1, 10 and 15 panic on buffers
shorter than their string field. -/
theorem unpack_totality_amended :
    GovernanceInstruction.unpack [] = UnpackResult.err ∧
    (∀ tag rest, tag = 0 ∨ 16 ≤ tag →
      GovernanceInstruction.unpack (tag :: rest) = UnpackResult.err) ∧
    (∀ tag rest, ¬ (tag = 1 ∨ tag = 10 ∨ tag = 15) →
      GovernanceInstruction.unpack (tag :: rest) ≠ UnpackResult.crash) := by
  refine ⟨rfl, ?_, ?_⟩
  · intro tag rest h
    have n1 : ¬ tag = 1 := by omega
    have n2 : ¬ tag = 2 := by omega
    have n3 : ¬ tag = 3 := by omega
    have n4 : ¬ tag = 4 := by omega
    have n5 : ¬ tag = 5 := by omega
    have n6 : ¬ tag = 6 := by omega
    have n7 : ¬ tag = 7 := by omega
    have n8 : ¬ tag = 8 := by omega
    have n9 : ¬ tag = 9 := by omega
    have n10 : ¬ tag = 10 := by omega
    have n11 : ¬ tag = 11 := by omega
    have n12 : ¬ tag = 12 := by omega
    have n13 : ¬ tag = 13 := by omega
    have n14 : ¬ tag = 14 := by omega
    have n15 : ¬ tag = 15 := by omega
    simp [GovernanceInstruction.unpack, n1, n2, n3, n4, n5, n6, n7, n8, n9,
      n10, n11, n12, n13, n14, n15]
  · intro tag rest h
    push_neg at h
    obtain ⟨n1, n10, n15⟩ := h
    by_cases t2 : tag = 2
    · subst t2
      simp [GovernanceInstruction.unpack]
    by_cases t3 : tag = 3
    · subst t3
      simp [GovernanceInstruction.unpack]
    by_cases t4 : tag = 4
    · subst t4
      rcases h4 : unpack_u64 rest with _ | ⟨a, r1⟩
      · simp [GovernanceInstruction.unpack, h4]
      · rcases h5 : unpack_instructions r1 with _ | ⟨ins, r2⟩
        · simp [GovernanceInstruction.unpack, h4, h5]
        · rcases h6 : unpack_u8 r2 with _ | ⟨p, r3⟩
          · simp [GovernanceInstruction.unpack, h4, h5, h6]
          · rcases h7 : unpack_u16 r3 with _ | ⟨ei, r4⟩
            · simp [GovernanceInstruction.unpack, h4, h5, h6, h7]
            · simp [GovernanceInstruction.unpack, h4, h5, h6, h7]
    by_cases t5 : tag = 5
    · subst t5
      simp [GovernanceInstruction.unpack]
    by_cases t6 : tag = 6
    · subst t6
      rcases h4 : unpack_u64 rest with _ | ⟨a, r1⟩ <;>
        simp [GovernanceInstruction.unpack, h4]
    by_cases t7 : tag = 7
    · subst t7
      simp [GovernanceInstruction.unpack]
    by_cases t8 : tag = 8
    · subst t8
      simp [GovernanceInstruction.unpack]
    by_cases t9 : tag = 9
    · subst t9
      rcases h4 : unpack_u64 rest with _ | ⟨y, r1⟩
      · simp [GovernanceInstruction.unpack, h4]
      · rcases h5 : unpack_u64 r1 with _ | ⟨n0, r2⟩
        · simp [GovernanceInstruction.unpack, h4, h5]
        · by_cases hy : y > 0
          · simp [GovernanceInstruction.unpack, h4, h5, hy]
          · by_cases hn : n0 > 0 <;>
              simp [GovernanceInstruction.unpack, h4, h5, hy, hn]
    by_cases t11 : tag = 11
    · subst t11
      simp [GovernanceInstruction.unpack]
    by_cases t12 : tag = 12
    · subst t12
      rcases h4 : unpack_u64 rest with _ | ⟨a, r1⟩ <;>
        simp [GovernanceInstruction.unpack, h4]
    by_cases t13 : tag = 13
    · subst t13
      rcases h4 : unpack_u64 rest with _ | ⟨a, r1⟩ <;>
        simp [GovernanceInstruction.unpack, h4]
    by_cases t14 : tag = 14
    · subst t14
      simp [GovernanceInstruction.unpack]
    simp [GovernanceInstruction.unpack, n1, t2, t3, t4, t5, t6, t7, t8, t9,
      n10, t11, t12, t13, t14, n15]

/-- Witness for the amended C6 theorem at the unknown tag 16. -/
theorem unpack_totality_amended_witness :
    GovernanceInstruction.unpack [16] = UnpackResult.err :=
  unpack_totality_amended.2.1 16 [] (by omega)

/-- TimelockStateStatus from timelock state/enums.rs. -/
inductive TimelockStateStatus
  | Draft
  | Voting
  | Executing
  | Completed
  | Deleted
  | Defeated
  deriving DecidableEq

/-- Inputs of timelock utils.rs assert_is_permissioned: the
initialization state and balance of the capability-holder and
validation token accounts, the supplied program-authority key, the
derived authority key (the find_program_address result over the
timelock-set key, an external hash derivation supplied here as an
input), and booleans recording whether the external authority of each
transfer leg (signer validity, account owner, mint match) is accepted
by the token program. -/
structure PermissionCtx where
  perm_initialized : Bool
  perm_validation_initialized : Bool
  supplied_authority : Nat
  derived_authority : Nat
  perm_amount : Nat
  validation_amount : Nat
  leg1_authority_ok : Bool
  leg2_authority_ok : Bool
  deriving DecidableEq

/-- Model of one spl_token transfer of the given amount: it moves the
amount from source to destination and fails (none, surfaced as
TokenTransferFailed) when the authority is rejected, the source balance
is short, or the destination balance would overflow u64. -/
def spl_token_transfer (source_amount dest_amount amount : Nat)
    (authority_ok : Bool) : Option (Nat × Nat) :=
  if authority_ok = true ∧ amount ≤ source_amount ∧
      dest_amount + amount < U64_MOD then
    some (source_amount - amount, dest_amount + amount)
  else none

/-- Embedding of timelock utils.rs assert_is_permissioned (lines
39-77): assert_initialized on both token accounts, the derived-
authority comparison, then a transfer of one token holder to validation
(signed by the transfer authority) and one token back (signed by the
program authority).  Returns the final (holder, validation) balances on
success. -/
def assert_is_permissioned (c : PermissionCtx) :
    Except TimelockError (Nat × Nat) :=
  if c.perm_initialized = false then
    Except.error TimelockError.Uninitialized
  else if c.perm_validation_initialized = false then
    Except.error TimelockError.Uninitialized
  else if c.supplied_authority ≠ c.derived_authority then
    Except.error TimelockError.InvalidTimelockAuthority
  else
    match spl_token_transfer c.perm_amount c.validation_amount 1
      c.leg1_authority_ok with
    | none => Except.error TimelockError.TokenTransferFailed
    | some (p1, v1) =>
      match spl_token_transfer v1 p1 1 c.leg2_authority_ok with
      | none => Except.error TimelockError.TokenTransferFailed
      | some (v2, p2) => Except.ok (p2, v2)

/-- C7: on initialized token accounts the permission check fails with
InvalidTimelockAuthority whenever the supplied program-authority key
differs from the derived address; otherwise it round-trips exactly one
token, succeeds exactly when both transfer legs can succeed, and on
success leaves both balances net unchanged. -/
theorem assert_is_permissioned_spec (c : PermissionCtx)
    (hinit1 : c.perm_initialized = true)
    (hinit2 : c.perm_validation_initialized = true)
    (hp : c.perm_amount < U64_MOD) (hv : c.validation_amount < U64_MOD) :
    (c.supplied_authority ≠ c.derived_authority →
      assert_is_permissioned c =
        Except.error TimelockError.InvalidTimelockAuthority) ∧
    (c.supplied_authority = c.derived_authority →
      (is_ok (assert_is_permissioned c) = true ↔
        (c.leg1_authority_ok = true ∧ 1 ≤ c.perm_amount ∧
          c.validation_amount + 1 < U64_MOD ∧ c.leg2_authority_ok = true))) ∧
    (∀ p v, assert_is_permissioned c = Except.ok (p, v) →
      p = c.perm_amount ∧ v = c.validation_amount) := by
  have key : assert_is_permissioned c =
      if c.supplied_authority ≠ c.derived_authority then
        Except.error TimelockError.InvalidTimelockAuthority
      else if c.leg1_authority_ok = true ∧ 1 ≤ c.perm_amount ∧
          c.validation_amount + 1 < U64_MOD then
        (if c.leg2_authority_ok = true then
          Except.ok (c.perm_amount, c.validation_amount)
        else Except.error TimelockError.TokenTransferFailed)
      else Except.error TimelockError.TokenTransferFailed := by
    by_cases hne : c.supplied_authority ≠ c.derived_authority
    · simp [assert_is_permissioned, hinit1, hinit2, hne]
    · by_cases hb1 : c.leg1_authority_ok = true
      · by_cases hpa : 1 ≤ c.perm_amount
        · by_cases hva : c.validation_amount + 1 < U64_MOD
          · by_cases hb2 : c.leg2_authority_ok = true
            · have e1 : c.perm_amount - 1 + 1 = c.perm_amount := by omega
              have e2 : c.validation_amount + 1 - 1 = c.validation_amount := by
                omega
              have e3 : c.perm_amount - 1 + 1 < U64_MOD := by omega
              have e4 : (1 : Nat) ≤ c.validation_amount + 1 := by omega
              simp [assert_is_permissioned, spl_token_transfer, hinit1, hinit2,
                hne, hb1, hpa, hva, hb2, e1, e2, e3, e4, hp]
            · have e3 : c.perm_amount - 1 + 1 < U64_MOD := by omega
              have e4 : (1 : Nat) ≤ c.validation_amount + 1 := by omega
              simp [assert_is_permissioned, spl_token_transfer, hinit1, hinit2,
                hne, hb1, hpa, hva, hb2, e3, e4]
          · simp [assert_is_permissioned, spl_token_transfer, hinit1, hinit2,
              hne, hb1, hpa, hva]
        · simp [assert_is_permissioned, spl_token_transfer, hinit1, hinit2,
            hne, hb1, hpa]
      · simp [assert_is_permissioned, spl_token_transfer, hinit1, hinit2,
          hne, hb1]
  refine ⟨?_, ?_, ?_⟩
  · intro hne
    rw [key, if_pos hne]
  · intro heq
    have hne' : ¬ c.supplied_authority ≠ c.derived_authority := by simp [heq]
    rw [key, if_neg hne']
    by_cases hcond : c.leg1_authority_ok = true ∧ 1 ≤ c.perm_amount ∧
        c.validation_amount + 1 < U64_MOD
    · rw [if_pos hcond]
      obtain ⟨hc1, hc2, hc3⟩ := hcond
      by_cases hb2 : c.leg2_authority_ok = true
      · simp [hb2, is_ok, hc1, hc2, hc3]
      · simp [hb2, is_ok]
    · rw [if_neg hcond]
      simp [is_ok]
      intro hc1 hc2 hc3
      exact absurd ⟨hc1, hc2, hc3⟩ hcond
  · intro p v h
    rw [key] at h
    split_ifs at h with hh1 hh2 hh3
    all_goals
      first
      | exact Except.noConfusion h
      | (injection h with hpair
         injection hpair with ha hb
         exact ⟨ha.symm, hb.symm⟩)

/-- The scan loop of timelock process_remove_transaction.rs lines
38-51: zero (the all-zero key, modelled 0) the first slot holding the
target key and stop; none when no slot matches. -/
def zero_first_match : List Nat → Nat → Option (List Nat)
  | [], _ => none
  | k :: rest, target =>
    if k = target then some (0 :: rest)
    else
      match zero_first_match rest target with
      | none => none
      | some l => some (k :: l)

/-- Inputs of timelock process_remove_transaction.rs: the timelock
set's state status, its fixed transaction-key array, the key of the
addressed transaction account, and booleans for the address assertion,
the version assertion and the signatory permission round-trip. -/
structure RemoveTxnCtx where
  timelock_state_status : TimelockStateStatus
  timelock_transactions : List Nat
  txn_key : Nat
  accounts_equiv_ok : Bool
  version_ok : Bool
  permission_ok : Bool
  deriving DecidableEq

/-- Embedding of timelock process_remove_transaction.rs: address
assertion, version assertion, assert_draft, assert_is_permissioned,
then the scan loop; TimelockTransactionNotFoundError when the key is
absent (nothing written), otherwise the array with exactly the first
matching slot zeroed is persisted. -/
def process_remove_transaction (c : RemoveTxnCtx) :
    Except TimelockError (List Nat) :=
  if c.accounts_equiv_ok = false then
    Except.error TimelockError.AccountsShouldMatch
  else if c.version_ok = false then
    Except.error TimelockError.InvalidTimelockVersion
  else if c.timelock_state_status ≠ TimelockStateStatus.Draft then
    Except.error TimelockError.InvalidTimelockSetStateError
  else if c.permission_ok = false then
    Except.error TimelockError.TokenTransferFailed
  else
    match zero_first_match c.timelock_transactions c.txn_key with
    | none => Except.error TimelockError.TimelockTransactionNotFoundError
    | some l => Except.ok l

/-- The scan loop finds nothing when the key is in no slot. -/
theorem zero_first_match_not_mem (l : List Nat) (k : Nat) (h : k ∉ l) :
    zero_first_match l k = none := by
  induction l with
  | nil => rfl
  | cons a rest ih =>
    have ha : ¬ a = k := by
      intro hc
      exact h (by simp [hc])
    have hrest : k ∉ rest := fun hc => h (List.mem_cons_of_mem a hc)
    simp [zero_first_match, ha, ih hrest]

/-- The scan loop zeroes exactly the first slot holding the key and
keeps every other entry in place. -/
theorem zero_first_match_mem (l : List Nat) (k : Nat) (h : k ∈ l) :
    zero_first_match l k = some (l.set (l.indexOf k) 0) := by
  induction l with
  | nil => cases h
  | cons a rest ih =>
    by_cases ha : a = k
    · subst ha
      simp [zero_first_match, List.indexOf_cons_self]
    · have hrest : k ∈ rest := by
        rcases List.mem_cons.mp h with hc | hc
        · exact absurd hc.symm ha
        · exact hc
      have hne : a ≠ k := ha
      simp [zero_first_match, ha, ih hrest, List.indexOf_cons_ne _ hne]

/-- C8: for a RemoveTransaction on a Draft proposal, an absent
transaction key fails with TimelockTransactionNotFoundError and the
array is unchanged (the error returns before any write); a present key
has exactly its first matching slot overwritten with the all-zero key,
the remaining entries keeping their positions (no compaction). -/
theorem remove_transaction_spec (c : RemoveTxnCtx)
    (h1 : c.accounts_equiv_ok = true) (h2 : c.version_ok = true)
    (h3 : c.timelock_state_status = TimelockStateStatus.Draft)
    (h4 : c.permission_ok = true) :
    (c.txn_key ∉ c.timelock_transactions →
      process_remove_transaction c =
        Except.error TimelockError.TimelockTransactionNotFoundError) ∧
    (c.txn_key ∈ c.timelock_transactions →
      process_remove_transaction c =
        Except.ok (c.timelock_transactions.set
          (c.timelock_transactions.indexOf c.txn_key) 0)) := by
  constructor
  · intro hmem
    simp [process_remove_transaction, h1, h2, h3, h4,
      zero_first_match_not_mem _ _ hmem]
  · intro hmem
    simp [process_remove_transaction, h1, h2, h3, h4,
      zero_first_match_mem _ _ hmem]

/-- A Draft remove-transaction context whose array holds keys 7, 8, 9
and two empty (zero) slots. -/
def remove_txn_ctx : RemoveTxnCtx :=
  { timelock_state_status := TimelockStateStatus.Draft,
    timelock_transactions := [7, 8, 9, 0, 0], txn_key := 8,
    accounts_equiv_ok := true, version_ok := true, permission_ok := true }

/-- Witness for C8: removing key 8 zeroes slot 1 only. -/
theorem remove_transaction_spec_witness :
    process_remove_transaction remove_txn_ctx = Except.ok [7, 0, 9, 0, 0] :=
  (remove_transaction_spec remove_txn_ctx rfl rfl rfl rfl).2 (by decide)

/-- A permission context whose supplied authority key differs from the
derived one. -/
def permission_ctx_mismatch : PermissionCtx :=
  { perm_initialized := true, perm_validation_initialized := true,
    supplied_authority := 1, derived_authority := 2, perm_amount := 5,
    validation_amount := 1, leg1_authority_ok := true,
    leg2_authority_ok := true }

/-- Witness for C7 at a mismatching derived authority. -/
theorem assert_is_permissioned_spec_witness :
    assert_is_permissioned permission_ctx_mismatch =
      Except.error TimelockError.InvalidTimelockAuthority :=
  (assert_is_permissioned_spec permission_ctx_mismatch rfl rfl (by decide)
    (by decide)).1 (by decide)
